import Mathlib

/-!
Verification of the discovery-and-probe engine of the IGD exporter
(src/igd_exporter/igd.py), as a shallow embedding in Lean 4.

Datagrams are modelled as `List Char` (one char per latin1 byte: the code
decodes header bytes with the latin1 codec, which is a bijection between
bytes and the first 256 code points, so nothing is lost by working with
characters throughout).  Network effects (socket receives, HTTP requests)
are modelled as explicit inputs: a list of receive events for one discovery
socket, and an oracle `fetch` standing for `probe_metric service_url` for
one resolved device.
-/

set_option autoImplicit false

/-! ### Byte/char utilities mirroring the Python `bytes` methods used -/

/-- ASCII whitespace, as recognised by Python's `bytes.split()` /
`bytes.lstrip()` (` \t\n\r\x0b\x0c`). -/
def pySpace (c : Char) : Bool :=
  c == ' ' || c == '\t' || c == '\n' || c == '\r' || c == '\x0b' || c == '\x0c'

/-- Helper for `splitWS`: accumulates the current token (reversed). -/
def splitWSAux : List Char → List Char → List (List Char)
  | [], acc => if acc.isEmpty then [] else [acc.reverse]
  | c :: rest, acc =>
    if pySpace c then
      if acc.isEmpty then splitWSAux rest []
      else acc.reverse :: splitWSAux rest []
    else splitWSAux rest (c :: acc)

/-- Python `bytes.split()` with no argument: split on runs of ASCII
whitespace, discarding empty tokens.  Used for the status line
(`status.split()` in `search_parse`). -/
def splitWS (l : List Char) : List (List Char) :=
  splitWSAux l []

/-- `buf.partition(b'\r\n')`, keeping only (before, after): when the
separator is absent Python returns `(buf, b'', b'')`, i.e. after = `[]`. -/
def partitionCRLF : List Char → List Char × List Char
  | [] => ([], [])
  | [c] => ([c], [])
  | a :: b :: rest =>
    if a == '\r' && b == '\n' then ([], rest)
    else (a :: (partitionCRLF (b :: rest)).1, (partitionCRLF (b :: rest)).2)

/-- Whether the char list contains the two-char sequence CRLF. -/
def hasCRLF : List Char → Bool
  | [] => false
  | [_] => false
  | a :: b :: rest => (a == '\r' && b == '\n') || hasCRLF (b :: rest)

/-- `header.partition(b':')`, keeping only (before, after). -/
def partitionColon : List Char → List Char × List Char
  | [] => ([], [])
  | c :: rest =>
    if c == ':' then ([], rest)
    else (c :: (partitionColon rest).1, (partitionColon rest).2)

/-- Join header lines with CRLF terminators, as they appear on the wire
before the blank line that ends the header block. -/
def joinCRLF (lines : List (List Char)) : List Char :=
  lines.foldr (fun l acc => l ++ '\r' :: '\n' :: acc) []

/-- A discovery-response datagram: status line, CRLF, each header line
followed by CRLF, then the blank line ending the header block, then the
body. -/
def mkDatagram (statusLine : List Char) (lines : List (List Char)) (body : List Char) : List Char :=
  statusLine ++ '\r' :: '\n' :: (joinCRLF lines ++ '\r' :: '\n' :: body)

/-! ### The header multimap (`wsgiref.headers.Headers`)

The code stores headers in a `wsgiref.headers.Headers` object.  Its
`add_header(name, value)` (with no parameters) appends the pair to an
internal ordered list, and `headers[name]` returns the value of the first
pair whose name matches case-insensitively, or `None` when there is no
match (it never raises).  Lower-casing is modelled for ASCII letters, which
covers every header name the protocol uses. -/

structure Headers where
  pairs : List (List Char × List Char)
deriving DecidableEq

/-- ASCII lower-casing of a name, as `str.lower()` does for the ASCII
range. -/
def strLower (l : List Char) : List Char :=
  l.map Char.toLower

/-- `headers[name]`: first case-insensitive match, `none` when absent. -/
def Headers.get (h : Headers) (name : List Char) : Option (List Char) :=
  (h.pairs.find? (fun kv => strLower kv.1 == strLower name)).map (fun kv => kv.2)

/-! ### The framer: `search_parse` and `search_result` -/

/-- The exceptions the framer can raise.  The Python code raises plain
`Exception` values; the constructors record which `raise` site (or which
built-in error) produced them. -/
inductive ParseErr where
  /-- `version, status, reason = status.split()` raised `ValueError`
  because the status line did not split into exactly three tokens. -/
  | valueError
  /-- `raise Exception('Unknown status ...')`: status token was not
  `b'200'`. -/
  | unknownStatus
  /-- `raise Exception('Malformed search result from ...')`: the wrapper
  in `search_result` around any failure of `search_parse`. -/
  | malformed
deriving DecidableEq

/-- The status token the code accepts: `b'200'`. -/
def status200 : List Char := ['2', '0', '0']

/-- One line of the header parse: `name, sep, value = header.partition(b':')`
followed by `value.lstrip()` (and latin1 decoding, the identity here).
A line with no colon yields the whole line as name and an empty value;
`partition` never fails. -/
def parseHeaderPair (header : List Char) : List Char × List Char :=
  ((partitionColon header).1, (partitionColon header).2.dropWhile pySpace)

/-- The header-block loop of `search_parse`, with explicit fuel so that the
definition is structurally recursive (and hence computes by `rfl`).  One
unit of fuel per iteration; each iteration with a non-empty header line
strictly shrinks the buffer, so `length + 1` fuel is never exhausted. -/
def parse_headers_fuel : Nat → List Char → List (List Char × List Char) × List Char
  | 0, buf => ([], buf)
  | fuel + 1, buf =>
    if (partitionCRLF buf).1 = [] then ([], (partitionCRLF buf).2)
    else
      (parseHeaderPair (partitionCRLF buf).1 :: (parse_headers_fuel fuel (partitionCRLF buf).2).1,
       (parse_headers_fuel fuel (partitionCRLF buf).2).2)

/-- The `while True` header loop of `search_parse`: repeatedly partition on
CRLF; an empty line ends the block; otherwise record the (name, value) pair
and continue.  Returns the pairs in receipt order and the remaining body. -/
def parse_headers (buf : List Char) : List (List Char × List Char) × List Char :=
  parse_headers_fuel (buf.length + 1) buf

/-- `search_parse(buf)`: split off the status line, split it on whitespace
into exactly three tokens (`ValueError` otherwise), require status token
`b'200'`, then parse the header block. -/
def search_parse (buf : List Char) : Except ParseErr (Headers × List Char) :=
  match splitWS (partitionCRLF buf).1 with
  | [_version, status, _reason] =>
    if status ≠ status200 then Except.error ParseErr.unknownStatus
    else
      Except.ok (Headers.mk (parse_headers (partitionCRLF buf).2).1,
                 (parse_headers (partitionCRLF buf).2).2)
  | _ => Except.error ParseErr.valueError

/-- `search_result(buf, addr)`: run the framer and look up `Location`.
Any exception is re-raised as `Malformed search result`; the lookup itself
never raises — a missing `Location` header yields the value `None`, which
becomes the function's result. -/
def search_result (buf : List Char) : Except ParseErr (Option (List Char)) :=
  match search_parse buf with
  | Except.error _ => Except.error ParseErr.malformed
  | Except.ok (headers, _body) => Except.ok (headers.get ("Location".data))

/-! ### The per-socket receive loop (`search_socket`) and `search` -/

/-- One outcome of `sock.recvfrom(1024)`: either `socket.timeout` or a
datagram. -/
inductive RecvEvent where
  | timeout
  | data (buf : List Char)

/-- The body of `for n in range(100)` in `search_socket`: at most `n` more
receives; a timeout breaks the loop; a datagram is passed to
`search_result`, whose value is appended on success while any exception is
printed and the loop continues.  An exhausted event list simply ends the
modelled trace. -/
def search_socket_go : Nat → List RecvEvent → List (Option (List Char))
  | 0, _ => []
  | _ + 1, [] => []
  | _ + 1, RecvEvent.timeout :: _ => []
  | n + 1, RecvEvent.data buf :: rest =>
    match search_result buf with
    | Except.ok v => v :: search_socket_go n rest
    | Except.error _ => search_socket_go n rest

/-- `search_socket(sock, timeout, target)` after the send: the bounded
receive loop over the socket's stream of receive events. -/
def search_socket (events : List RecvEvent) : List (Option (List Char)) :=
  search_socket_go 100 events

/-- A socket-level failure during setup (`socket.socket(...)` raising
`OSError`, e.g. IPv6 unsupported on the host). -/
inductive SockErr where
  | oserror
deriving DecidableEq

/-- `search(timeout)`: create the IPv6 socket, then the IPv4 socket (a
failure of either propagates out of `search`), then run `search_socket` on
both and chain the results, IPv6 first.  Each argument carries either the
setup failure for that family or the receive events the socket would
yield. -/
def search (sock6 sock4 : Except SockErr (List RecvEvent)) :
    Except SockErr (List (Option (List Char))) :=
  match sock6 with
  | Except.error e => Except.error e
  | Except.ok e6 =>
    match sock4 with
    | Except.error e => Except.error e
    | Except.ok e4 => Except.ok (search_socket e6 ++ search_socket e4)

/-! ### The probe orchestrator (`probe`) and the `ui4` correction

`probe(target_url)` resolves the device, then queries the four fixed
metrics via a thread pool's `map` (which yields results in input order),
applies the signed-to-unsigned correction, and formats one sample line per
metric carrying the metric name, the device's UDN and the corrected value.
The sample line `b'igd_..._%s{udn="%s"} %d\n'` is modelled by the `Sample`
record of exactly the three interpolated fields.  The network call
`probe_metric(device.url, metric)` is modelled by the oracle `fetch`. -/

/-- `Device(udn, url)`: the named tuple built by `probe_device`.  Both
fields come from `findtext`/`urljoin` calls that can produce `None`. -/
structure Device where
  udn : Option String
  url : Option String
deriving DecidableEq

/-- One emitted sample: the three values interpolated into the Prometheus
text line. -/
structure Sample where
  metric : String
  udn : String
  value : Int
deriving DecidableEq

/-- The fixed metric query list of `probe`, in source order. -/
def metrics : List String :=
  ["TotalBytesReceived", "TotalBytesSent", "TotalPacketsReceived", "TotalPacketsSent"]

/-- The correction applied in `probe`'s loop: `if value < 0: value += 2 ** 32`. -/
def correct_value (v : Int) : Int :=
  if v < 0 then v + 2 ^ 32 else v

/-- Failures that abort a probe. -/
inductive ProbeErr where
  /-- `probe_metric` raised: HTTP transport failure, missing `New<metric>`
  element, or non-numeric text (`int` raising `ValueError`). -/
  | probeError
  /-- Formatting raised `AttributeError` because `device.udn` is `None`
  (`device.udn.encode('utf-8')`). -/
  | attrError
deriving DecidableEq

/-- The consumption loop `for metric, value in ex.map(...)`: per metric,
obtain the value (an exception from that query propagates here, aborting
the whole probe), apply the correction, and format the sample — which
dereferences `device.udn`. -/
def probe_loop (udn : Option String) (fetch : String → Except ProbeErr Int) :
    List String → Except ProbeErr (List Sample)
  | [] => Except.ok []
  | m :: ms =>
    match fetch m with
    | Except.error e => Except.error e
    | Except.ok v =>
      match udn with
      | none => Except.error ProbeErr.attrError
      | some u =>
        match probe_loop udn fetch ms with
        | Except.error e => Except.error e
        | Except.ok rest => Except.ok (Sample.mk m u (correct_value v) :: rest)

/-- `probe(target_url)`: resolve the device (a resolution failure
propagates), then run the metric loop. -/
def probe (dev : Except ProbeErr Device) (fetch : String → Except ProbeErr Int) :
    Except ProbeErr (List Sample) :=
  match dev with
  | Except.error e => Except.error e
  | Except.ok d => probe_loop d.udn fetch metrics

/-! ### The device resolver (`probe_device`)

The SCPD document is modelled as a tree of elements with a tag, optional
text and a child list.  The `d:` prefix in the source's XPath expressions
resolves to the single device-description namespace; since every element
involved lives in that one namespace, tags are modelled by their local
names.  `ElementTree` semantics used: `findtext(tag)` returns the text of
the first direct child with that tag, `''` if that child has no text, and
`None` when there is no such child; `find("tag[child='v']/...")` walks the
path, returning `None` when some step has no match (the model follows the
first match of each step, which is exact for the single-match documents
considered here).  `urllib.parse.urljoin` is modelled for http URLs in the
reference forms exercised by the source: it returns the other argument
when either is empty/`None`, returns `url` when it is already absolute,
resolves a `/`-rooted path against the base's scheme and network location,
and otherwise replaces the base path's last segment. -/

inductive XElem where
  | mk (tag : String) (text : Option String) (children : List XElem)

def XElem.tag : XElem → String
  | XElem.mk t _ _ => t

def XElem.text : XElem → Option String
  | XElem.mk _ x _ => x

def XElem.children : XElem → List XElem
  | XElem.mk _ _ c => c

/-- First direct child with the given tag. -/
def findChild (e : XElem) (t : String) : Option XElem :=
  e.children.find? (fun c => c.tag == t)

/-- `element.findtext(tag)`: text of the first matching direct child
(`''` when that child has no text), `None` when no child matches. -/
def findtextDirect (e : XElem) (t : String) : Option String :=
  (findChild e t).map (fun c => c.text.getD "")

/-- One path step with a predicate, `tag[pred='v']`: first direct child
with the given tag whose child `pred` has text `v`. -/
def findChildWith (e : XElem) (t pred pv : String) : Option XElem :=
  e.children.find? (fun c => c.tag == t && findtextDirect c pred == some pv)

/-- Whether the URL reference already carries `://` (scheme + netloc). -/
def hasSchemeSep : List Char → Bool
  | [] => false
  | ':' :: '/' :: '/' :: _ => true
  | _ :: rest => hasSchemeSep rest

/-- Scheme and network location of an absolute http URL: everything up to
(but excluding) the first `/` after `://`. -/
def schemeNetloc : List Char → List Char
  | [] => []
  | ':' :: '/' :: '/' :: rest => ':' :: '/' :: '/' :: rest.takeWhile (fun c => c != '/')
  | c :: rest => c :: schemeNetloc rest

/-- Path up to and including its last `/`. -/
def dropLastSegment (p : List Char) : List Char :=
  (p.reverse.dropWhile (fun c => c != '/')).reverse

/-- `urljoin` on two non-empty strings (see the section comment). -/
def urljoin_lists (b u : List Char) : List Char :=
  if hasSchemeSep u then u
  else
    match u with
    | '/' :: _ => schemeNetloc b ++ u
    | _ => schemeNetloc b ++ dropLastSegment (b.drop (schemeNetloc b).length) ++ u

/-- `urllib.parse.urljoin(base, url)`: `if not base: return url`,
`if not url: return base` (both `None` and `''` are falsy), else join. -/
def urljoin : Option String → Option String → Option String
  | none, u => u
  | some "", u => u
  | some b, none => some b
  | some b, some "" => some b
  | some b, some u => some (String.mk (urljoin_lists b.data u.data))

/-- The three device/service type URNs matched by `probe_device`. -/
def igdDeviceType : String := "urn:schemas-upnp-org:device:InternetGatewayDevice:1"

def wanDeviceType : String := "urn:schemas-upnp-org:device:WANDevice:1"

def wanCICServiceType : String := "urn:schemas-upnp-org:service:WANCommonInterfaceConfig:1"

/-- `probe_device(target_url)` on the parsed SCPD root element: read
`URLBase`, find the WANDevice along
`device[deviceType=IGD]/deviceList/device[deviceType=WANDevice]` (a `None`
result makes the subsequent attribute access raise, modelled as `none`),
read the control URL path through
`serviceList/service[serviceType=WANCommonInterfaceConfig]/controlURL`,
and build `Device(udn, urljoin(url_base, url_path))` where `udn` is the
**WANDevice**'s `UDN` text. -/
def probe_device (root : XElem) : Option Device :=
  (findChildWith root ("device") ("deviceType") igdDeviceType).bind fun igd =>
  (findChild igd ("deviceList")).bind fun dl =>
  (findChildWith dl ("device") ("deviceType") wanDeviceType).bind fun device =>
  some (Device.mk (findtextDirect device ("UDN"))
    (urljoin (findtextDirect root ("URLBase"))
      ((findChild device ("serviceList")).bind fun sl =>
        (findChildWith sl ("service") ("serviceType") wanCICServiceType).bind fun svc =>
          findtextDirect svc ("controlURL"))))

/-- The description document of the C5 end-to-end scenario: base URL
`http://192.0.2.1:80/`, the IGD → WANDevice → WANCommonInterfaceConfig
path, `UDN = uuid:abc` on the WANDevice and
`controlURL = /upnp/control/WANCommonIFC1`. -/
def c5Doc : XElem :=
  XElem.mk ("root") none
    [XElem.mk ("URLBase") (some "http://192.0.2.1:80/") [],
     XElem.mk ("device") none
       [XElem.mk ("deviceType") (some igdDeviceType) [],
        XElem.mk ("deviceList") none
          [XElem.mk ("device") none
            [XElem.mk ("deviceType") (some wanDeviceType) [],
             XElem.mk ("UDN") (some "uuid:abc") [],
             XElem.mk ("serviceList") none
               [XElem.mk ("service") none
                 [XElem.mk ("serviceType") (some wanCICServiceType) [],
                  XElem.mk ("controlURL") (some "/upnp/control/WANCommonIFC1") []]]]]]]

/-- Like `c5Doc`, but the top-level IGD device carries `UDN = uuid:top`
while the WANDevice carries `UDN = uuid:wan` — distinguishing which
device's UDN the resolver extracts. -/
def c5CexDoc : XElem :=
  XElem.mk ("root") none
    [XElem.mk ("URLBase") (some "http://192.0.2.1:80/") [],
     XElem.mk ("device") none
       [XElem.mk ("deviceType") (some igdDeviceType) [],
        XElem.mk ("UDN") (some "uuid:top") [],
        XElem.mk ("deviceList") none
          [XElem.mk ("device") none
            [XElem.mk ("deviceType") (some wanDeviceType) [],
             XElem.mk ("UDN") (some "uuid:wan") [],
             XElem.mk ("serviceList") none
               [XElem.mk ("service") none
                 [XElem.mk ("serviceType") (some wanCICServiceType) [],
                  XElem.mk ("controlURL") (some "/upnp/control/WANCommonIFC1") []]]]]]]

/-- The well-formed discovery datagram used in concrete counterexamples:
success status and a `Location` header. -/
def c4Datagram : List Char :=
  mkDatagram ("HTTP/1.1 200 OK".data) [("Location: http://example/".data)] []

/-! ### Helper lemmas -/

/-- Two-step list induction, matching the recursion pattern of
`partitionCRLF` and `hasCRLF`. -/
theorem twoStepInduction {P : List Char → Prop} (h0 : P []) (h1 : ∀ c, P [c])
    (h2 : ∀ a b rest, P (b :: rest) → P (a :: b :: rest)) : ∀ l, P l
  | [] => h0
  | [c] => h1 c
  | a :: b :: rest => h2 a b rest (twoStepInduction h0 h1 h2 (b :: rest))

/-- Partitioning a buffer that starts with a CRLF-free chunk followed by a
CRLF separator recovers exactly that chunk and the remainder. -/
theorem partitionCRLF_append (a b : List Char) (h : hasCRLF a = false) :
    partitionCRLF (a ++ '\r' :: '\n' :: b) = (a, b) := by
  induction a using twoStepInduction with
  | h0 => simp [partitionCRLF]
  | h1 c =>
    have hc : (c == '\r' && ('\r' == '\n')) = false := by
      rw [show (('\r' : Char) == '\n') = false from rfl, Bool.and_false]
    simp [partitionCRLF, hc]
  | h2 x y rest ih =>
    rw [hasCRLF] at h
    rcases Bool.or_eq_false_iff.mp h with ⟨hxy, hrest⟩
    have := ih hrest
    simp only [List.cons_append] at this ⊢
    rw [partitionCRLF, if_neg (by simp [hxy]), this]

/-- The two partition components never jointly exceed the input length. -/
theorem partitionCRLF_length (l : List Char) :
    (partitionCRLF l).1.length + (partitionCRLF l).2.length ≤ l.length := by
  induction l using twoStepInduction with
  | h0 => simp [partitionCRLF]
  | h1 c => simp [partitionCRLF]
  | h2 a b rest ih =>
    rw [partitionCRLF]
    by_cases hab : (a == '\r' && b == '\n') = true
    · simp only [hab, if_true]
      simp
      omega
    · rw [if_neg hab]
      simp only [List.length_cons] at ih ⊢
      omega

/-- When the first partition component is non-empty, the remainder is
strictly shorter than the input — the header loop terminates. -/
theorem partitionCRLF_rest_lt (l : List Char) (h : (partitionCRLF l).1 ≠ []) :
    (partitionCRLF l).2.length < l.length := by
  have hlen := partitionCRLF_length l
  have h1 : 1 ≤ (partitionCRLF l).1.length := by
    cases hp : (partitionCRLF l).1 with
    | nil => exact absurd hp h
    | cons c cs => simp
  omega

/-- The header loop's result does not depend on the fuel, as long as the
fuel exceeds the buffer length. -/
theorem parse_headers_fuel_irrel :
    ∀ (f1 f2 : Nat) (buf : List Char), buf.length < f1 → buf.length < f2 →
      parse_headers_fuel f1 buf = parse_headers_fuel f2 buf := by
  intro f1
  induction f1 with
  | zero => intro f2 buf h1 h2; omega
  | succ f1 ih =>
    intro f2 buf h1 h2
    cases f2 with
    | zero => omega
    | succ f2 =>
      rw [parse_headers_fuel, parse_headers_fuel]
      by_cases hp : (partitionCRLF buf).1 = []
      · simp [hp]
      · have hlt := partitionCRLF_rest_lt buf hp
        rw [if_neg hp, if_neg hp, ih f2 (partitionCRLF buf).2 (by omega) (by omega)]

/-- Parsing a header block made of non-empty CRLF-free lines yields
exactly the per-line (name, value) pairs, in order, and the body. -/
theorem parse_headers_block :
    ∀ (lines : List (List Char)) (body : List Char),
      (∀ l ∈ lines, l ≠ [] ∧ hasCRLF l = false) →
      parse_headers (joinCRLF lines ++ '\r' :: '\n' :: body) =
        (lines.map parseHeaderPair, body) := by
  intro lines
  induction lines with
  | nil =>
    intro body _
    show parse_headers ([] ++ '\r' :: '\n' :: body) = ([], body)
    rw [List.nil_append, parse_headers, parse_headers_fuel]
    rw [show partitionCRLF ('\r' :: '\n' :: body) = ([], body) from
      partitionCRLF_append [] body rfl]
    simp
  | cons l ls ih =>
    intro body h
    obtain ⟨hl, hlCRLF⟩ := h l (List.mem_cons_self l ls)
    have hls : ∀ x ∈ ls, x ≠ [] ∧ hasCRLF x = false :=
      fun x hx => h x (List.mem_cons_of_mem l hx)
    have hshape : joinCRLF (l :: ls) ++ '\r' :: '\n' :: body =
        l ++ '\r' :: '\n' :: (joinCRLF ls ++ '\r' :: '\n' :: body) := by
      rw [joinCRLF, List.foldr_cons, List.append_assoc]
      rfl
    have hlpos : 1 ≤ l.length := by
      cases l with
      | nil => exact absurd rfl hl
      | cons c cs => simp
    rw [hshape, parse_headers, parse_headers_fuel]
    rw [partitionCRLF_append l _ hlCRLF]
    dsimp only
    rw [if_neg hl]
    rw [parse_headers_fuel_irrel _ ((joinCRLF ls ++ '\r' :: '\n' :: body).length + 1) _
      (by simp only [List.length_append, List.length_cons]; omega) (by omega)]
    rw [show parse_headers_fuel ((joinCRLF ls ++ '\r' :: '\n' :: body).length + 1)
        (joinCRLF ls ++ '\r' :: '\n' :: body) =
        parse_headers (joinCRLF ls ++ '\r' :: '\n' :: body) from rfl]
    rw [ih body hls]
    rfl

/-- `search_parse` on a datagram with a well-formed, successful status
line: the framer succeeds with exactly the per-line header pairs and the
body. -/
theorem search_parse_mk_ok (statusLine : List Char) (lines : List (List Char))
    (body v r : List Char)
    (hsl : hasCRLF statusLine = false)
    (hsplit : splitWS statusLine = [v, status200, r])
    (hlines : ∀ l ∈ lines, l ≠ [] ∧ hasCRLF l = false) :
    search_parse (mkDatagram statusLine lines body) =
      Except.ok (Headers.mk (lines.map parseHeaderPair), body) := by
  rw [search_parse, mkDatagram, partitionCRLF_append _ _ hsl]
  dsimp only
  rw [hsplit]
  simp only [if_neg (show ¬ status200 ≠ status200 from fun hne => hne rfl)]
  rw [parse_headers_block lines body hlines]

/-- `search_parse` on a datagram whose status line splits into three
tokens with a non-`200` status token: the `Unknown status` failure. -/
theorem search_parse_mk_err (statusLine : List Char) (lines : List (List Char))
    (body v st r : List Char)
    (hsl : hasCRLF statusLine = false)
    (hsplit : splitWS statusLine = [v, st, r])
    (hne : st ≠ status200) :
    search_parse (mkDatagram statusLine lines body) =
      Except.error ParseErr.unknownStatus := by
  rw [search_parse, mkDatagram, partitionCRLF_append _ _ hsl]
  dsimp only
  rw [hsplit]
  simp only [if_pos hne]

/-- The receive loop with `n` iterations of budget only ever inspects the
first `n` receive events. -/
theorem search_socket_go_take :
    ∀ (n : Nat) (events : List RecvEvent),
      search_socket_go n events = search_socket_go n (events.take n) := by
  intro n
  induction n with
  | zero => intro events; rfl
  | succ n ih =>
    intro events
    cases events with
    | nil => rfl
    | cons e rest =>
      cases e with
      | timeout => rfl
      | data buf =>
        rw [List.take_succ_cons, search_socket_go, search_socket_go]
        cases hsr : search_result buf with
        | ok v => rw [ih rest]
        | error e => rw [ih rest]

/-- If any queried metric's fetch fails, the whole loop fails. -/
theorem probe_loop_error (udn : Option String) (fetch : String → Except ProbeErr Int) :
    ∀ (ms : List String) (m : String), m ∈ ms →
      ∀ (e : ProbeErr), fetch m = Except.error e →
        ∃ e2, probe_loop udn fetch ms = Except.error e2 := by
  intro ms
  induction ms with
  | nil => intro m hm; exact absurd hm (List.not_mem_nil m)
  | cons m' ms ih =>
    intro m hm e he
    rw [probe_loop]
    cases hm' : fetch m' with
    | error e' => exact ⟨e', rfl⟩
    | ok v' =>
      cases udn with
      | none => exact ⟨ProbeErr.attrError, rfl⟩
      | some u =>
        rcases List.mem_cons.mp hm with heq | hmem
        · rw [heq] at he; rw [he] at hm'; exact absurd hm' (by simp)
        · obtain ⟨e2, h2⟩ := ih m hmem e he
          rw [h2]
          exact ⟨e2, rfl⟩

/-! ### The claims -/

/-- C1: for every raw integer `v` parsed from a SOAP metric response, the
value placed in the emitted sample equals `v` if `v ≥ 0` and `v + 2^32`
otherwise, and under the precondition that `v` is a signed 32-bit reading
(`v ∈ [-2^31, 2^31-1]`) the corrected value always lies in
`[0, 2^32-1]`, with `2^32` added exactly once. -/
theorem C1_value_correction (v : Int) :
    correct_value v = (if 0 ≤ v then v else v + 2 ^ 32)
    ∧ (-(2 ^ 31) ≤ v → v ≤ 2 ^ 31 - 1 →
        0 ≤ correct_value v ∧ correct_value v ≤ 2 ^ 32 - 1)
    ∧ (∀ (u : String) (url : Option String),
        probe (Except.ok (Device.mk (some u) url)) (fun _ => Except.ok v)
          = Except.ok (metrics.map (fun m => Sample.mk m u (correct_value v)))) := by
  refine ⟨?_, ?_, fun u url => rfl⟩
  · rw [correct_value]
    rcases lt_or_le v 0 with h | h
    · rw [if_pos h, if_neg (by omega)]
    · rw [if_neg (by omega), if_pos h]
  · intro h1 h2
    have e32 : (2 : Int) ^ 32 = 4294967296 := by norm_num
    have e31 : (2 : Int) ^ 31 = 2147483648 := by norm_num
    rw [e31] at h1 h2
    simp only [correct_value, e32]
    refine ⟨?_, ?_⟩ <;> split <;> omega

/-- Witness for C1 at the reading `v = -1`. -/
theorem C1_witness :
    0 ≤ correct_value (-1) ∧ correct_value (-1) ≤ 2 ^ 32 - 1 :=
  (C1_value_correction (-1)).2.1 (by norm_num) (by norm_num)

/-- C2: for every well-formed discovery datagram whose status line carries
the exact status token `200` and whose header block contains a `Location`
header, the framer succeeds and the URL surfaced for that datagram is
exactly the `Location` header's value; for every datagram whose status
code token is not exactly `200`, the framer fails. -/
theorem C2_framer (statusLine : List Char) (lines : List (List Char))
    (body v st r loc : List Char)
    (hsl : hasCRLF statusLine = false)
    (hsplit : splitWS statusLine = [v, st, r])
    (hlines : ∀ l ∈ lines, l ≠ [] ∧ hasCRLF l = false) :
    (st = status200 →
      (Headers.mk (lines.map parseHeaderPair)).get ("Location".data) = some loc →
      search_result (mkDatagram statusLine lines body) = Except.ok (some loc))
    ∧ (st ≠ status200 →
      search_parse (mkDatagram statusLine lines body) =
        Except.error ParseErr.unknownStatus) := by
  constructor
  · intro h200 hloc
    subst h200
    simp only [search_result,
      search_parse_mk_ok statusLine lines body v r hsl hsplit hlines, hloc]
  · intro hne
    exact search_parse_mk_err statusLine lines body v st r hsl hsplit hne

/-- Witness for C2: a success datagram surfaces its Location value, and a
404 datagram fails. -/
theorem C2_witness :
    search_result (mkDatagram ("HTTP/1.1 200 OK".data)
        [("Location: http://example/".data)] [])
      = Except.ok (some ("http://example/".data))
    ∧ search_parse (mkDatagram ("HTTP/1.1 404 NotFound".data)
        [("Location: http://example/".data)] [])
      = Except.error ParseErr.unknownStatus :=
  ⟨(C2_framer ("HTTP/1.1 200 OK".data) [("Location: http://example/".data)] []
      ("HTTP/1.1".data) ("200".data) ("OK".data) ("http://example/".data)
      (by decide) (by decide) (by decide)).1 (by decide) (by decide),
   (C2_framer ("HTTP/1.1 404 NotFound".data) [("Location: http://example/".data)] []
      ("HTTP/1.1".data) ("404".data) ("NotFound".data) []
      (by decide) (by decide) (by decide)).2 (by decide)⟩

/-- C3 counterexample: a datagram with success status whose only header
line has no colon (and which therefore also has no `Location` header) is
not rejected — `search_result` succeeds with `None`, and the receive loop
records one `None` entry for it instead of zero entries. -/
theorem C3_counterexample :
    search_result (mkDatagram ("HTTP/1.1 200 OK".data) [("Nocolon".data)] [])
      = Except.ok none
    ∧ search_socket [RecvEvent.data (mkDatagram ("HTTP/1.1 200 OK".data)
        [("Nocolon".data)] []), RecvEvent.timeout] = [none] :=
  ⟨rfl, rfl⟩

/-- C3 (amended): a datagram whose status line carries a non-success (or
non-numeric) status token fails per-datagram with the malformed-result
error, and any datagram on which `search_result` fails contributes zero
entries while the receive loop continues with the subsequent datagrams;
however, a header line with no colon and an absent `Location` header do
not make processing fail — such a datagram parses and contributes a `None`
entry. -/
theorem C3_amended :
    (∀ (d : List Char) (rest : List RecvEvent) (n : Nat) (e : ParseErr),
        search_result d = Except.error e →
        search_socket_go (n + 1) (RecvEvent.data d :: rest) = search_socket_go n rest)
    ∧ (∀ (statusLine : List Char) (lines : List (List Char)) (body v st r : List Char),
        hasCRLF statusLine = false → splitWS statusLine = [v, st, r] →
        st ≠ status200 →
        search_result (mkDatagram statusLine lines body) = Except.error ParseErr.malformed)
    ∧ search_result (mkDatagram ("HTTP/1.1 200 OK".data) [("Nocolon".data)] [])
        = Except.ok none := by
  refine ⟨?_, ?_, rfl⟩
  · intro d rest n e he
    simp only [search_socket_go, he]
  · intro statusLine lines body v st r hsl hsplit hne
    simp only [search_result,
      search_parse_mk_err statusLine lines body v st r hsl hsplit hne]

/-- Witness for C3 (amended): a 404 datagram fails per-datagram and is
skipped by the loop, which goes on with the remaining events. -/
theorem C3_witness :
    search_socket_go 2 [RecvEvent.data (mkDatagram ("HTTP/1.1 404 NotFound".data) [] []),
        RecvEvent.timeout]
      = search_socket_go 1 [RecvEvent.timeout]
    ∧ search_result (mkDatagram ("HTTP/1.1 404 NotFound".data) [] [])
        = Except.error ParseErr.malformed := by
  have h2 := C3_amended.2.1 ("HTTP/1.1 404 NotFound".data) [] []
    ("HTTP/1.1".data) ("404".data) ("NotFound".data) (by decide) (by decide) (by decide)
  exact ⟨C3_amended.1 _ [RecvEvent.timeout] 1 ParseErr.malformed h2, h2⟩

/-- C4 counterexample: at an input where the IPv6 socket setup fails while
the IPv4 socket would discover one device, `search` aborts with the setup
error instead of returning the IPv4 family's (non-empty) results. -/
theorem C4_counterexample :
    search (Except.error SockErr.oserror)
        (Except.ok [RecvEvent.data c4Datagram, RecvEvent.timeout])
      ≠ Except.ok ([] ++ search_socket [RecvEvent.data c4Datagram, RecvEvent.timeout])
    ∧ search_socket [RecvEvent.data c4Datagram, RecvEvent.timeout]
        = [some ("http://example/".data)] :=
  ⟨fun h => Except.noConfusion h, rfl⟩

/-- C4 (amended): if the socket setup for either address family fails, the
whole search aborts with that error; the other family's results cannot
salvage it. -/
theorem C4_amended :
    (∀ (e : SockErr) (sock4 : Except SockErr (List RecvEvent)),
        search (Except.error e) sock4 = Except.error e)
    ∧ (∀ (e : SockErr) (events6 : List RecvEvent),
        search (Except.ok events6) (Except.error e) = Except.error e) :=
  ⟨fun _ _ => rfl, fun _ _ => rfl⟩

/-- C5 counterexample: on a document where the top-level IGD device
carries `UDN = uuid:top` while the WANDevice carries `UDN = uuid:wan`,
resolution returns the WANDevice's UDN — the UDN is not taken from the
top-level device. -/
theorem C5_counterexample :
    probe_device c5CexDoc
      = some (Device.mk (some "uuid:wan")
          (some "http://192.0.2.1:80/upnp/control/WANCommonIFC1"))
    ∧ (probe_device c5CexDoc).map Device.udn ≠ some (some "uuid:top") :=
  ⟨rfl, by decide⟩

/-- C5 (amended): for a description document declaring
`URLBase = http://192.0.2.1:80/` and containing the IGD → WANDevice →
WANCommonInterfaceConfig path with `UDN = uuid:abc` (on the WAN
sub-device) and `controlURL = /upnp/control/WANCommonIFC1`, resolution
returns exactly `{udn: uuid:abc,
controlUrl: http://192.0.2.1:80/upnp/control/WANCommonIFC1}`, the UDN
being taken from the matched WAN sub-device and the control URL being the
controlURL path resolved against the declared base URL. -/
theorem C5_amended :
    probe_device c5Doc
      = some (Device.mk (some "uuid:abc")
          (some "http://192.0.2.1:80/upnp/control/WANCommonIFC1")) := rfl

/-- C6: if all four metric queries succeed, the probe of one device
returns exactly one sample per metric name, each labeled with the resolved
device's udn; if any single metric query fails, the whole probe call fails
and yields no samples at all. -/
theorem C6_probe_all_or_nothing (u : String) (url : Option String)
    (fetch : String → Except ProbeErr Int) :
    ((∀ m ∈ metrics, ∃ v, fetch m = Except.ok v) →
      ∃ samples, probe (Except.ok (Device.mk (some u) url)) fetch = Except.ok samples
        ∧ samples.map Sample.metric = metrics
        ∧ metrics.Nodup
        ∧ ∀ s ∈ samples, s.udn = u)
    ∧ (∀ m ∈ metrics, ∀ e, fetch m = Except.error e →
        ∃ e2, probe (Except.ok (Device.mk (some u) url)) fetch = Except.error e2) := by
  constructor
  · intro hall
    obtain ⟨v1, h1⟩ := hall ("TotalBytesReceived") (by decide)
    obtain ⟨v2, h2⟩ := hall ("TotalBytesSent") (by decide)
    obtain ⟨v3, h3⟩ := hall ("TotalPacketsReceived") (by decide)
    obtain ⟨v4, h4⟩ := hall ("TotalPacketsSent") (by decide)
    refine ⟨[Sample.mk ("TotalBytesReceived") u (correct_value v1),
             Sample.mk ("TotalBytesSent") u (correct_value v2),
             Sample.mk ("TotalPacketsReceived") u (correct_value v3),
             Sample.mk ("TotalPacketsSent") u (correct_value v4)], ?_, ?_, ?_, ?_⟩
    · show probe_loop (some u) fetch metrics = _
      simp only [metrics, probe_loop, h1, h2, h3, h4]
    · rfl
    · decide
    · intro s hs
      simp only [List.mem_cons, List.not_mem_nil, or_false] at hs
      rcases hs with h | h | h | h <;> subst h <;> rfl
  · intro m hm e he
    exact probe_loop_error (some u) fetch metrics m hm e he

/-- Witness for C6: all four queries answering 7 produce the four samples. -/
theorem C6_witness :
    ∃ samples, probe (Except.ok (Device.mk (some "uuid:abc") none))
        (fun _ => Except.ok 7) = Except.ok samples
      ∧ samples.map Sample.metric = metrics
      ∧ metrics.Nodup
      ∧ ∀ s ∈ samples, s.udn = "uuid:abc" :=
  (C6_probe_all_or_nothing "uuid:abc" none (fun _ => Except.ok 7)).1
    (fun _ _ => ⟨7, rfl⟩)

/-- C7: the discovery receive loop of one socket always terminates: it
performs at most 100 receive iterations (its result depends only on the
first 100 receive events), and a receive timeout with zero responses
received terminates the loop normally with an empty result sequence, not
an error. -/
theorem C7_loop_bounded :
    (∀ events : List RecvEvent,
      search_socket events = search_socket (events.take 100))
    ∧ (∀ rest : List RecvEvent,
      search_socket (RecvEvent.timeout :: rest) = []) :=
  ⟨fun events => search_socket_go_take 100 events, fun _ => rfl⟩

/-- C8: in the header block produced by the framer for any datagram,
multiple occurrences of the same header name are all preserved in the
order received (the stored pair list is exactly the per-line pairs, never
collapsed), and lookup of a header by name is case-insensitive. -/
theorem C8_headers (statusLine : List Char) (lines : List (List Char))
    (body v r : List Char)
    (hsl : hasCRLF statusLine = false)
    (hsplit : splitWS statusLine = [v, status200, r])
    (hlines : ∀ l ∈ lines, l ≠ [] ∧ hasCRLF l = false) :
    search_parse (mkDatagram statusLine lines body)
      = Except.ok (Headers.mk (lines.map parseHeaderPair), body)
    ∧ (∀ (hs : Headers) (n1 n2 : List Char), strLower n1 = strLower n2 →
        hs.get n1 = hs.get n2) := by
  refine ⟨search_parse_mk_ok statusLine lines body v r hsl hsplit hlines, ?_⟩
  intro hs n1 n2 h
  simp only [Headers.get, h]

/-- Witness for C8: two `ST` headers are both kept, in order, and lookup
of `st` equals lookup of `ST`. -/
theorem C8_witness :
    search_parse (mkDatagram ("HTTP/1.1 200 OK".data)
        [("ST: a".data), ("ST: b".data), ("Location: http://x/".data)] [])
      = Except.ok (Headers.mk [(("ST".data), ("a".data)), (("ST".data), ("b".data)),
          (("Location".data), ("http://x/".data))], [])
    ∧ (Headers.mk [(("ST".data), ("a".data)), (("ST".data), ("b".data))]).get ("st".data)
      = (Headers.mk [(("ST".data), ("a".data)), (("ST".data), ("b".data))]).get ("ST".data) := by
  have h := C8_headers ("HTTP/1.1 200 OK".data)
    [("ST: a".data), ("ST: b".data), ("Location: http://x/".data)] []
    ("HTTP/1.1".data) ("OK".data) (by decide) (by decide) (by decide)
  exact ⟨h.1, h.2 (Headers.mk [(("ST".data), ("a".data)), (("ST".data), ("b".data))])
    ("st".data) ("ST".data) (by decide)⟩

/-- C9: when a probe of one device succeeds, the samples in the returned
sequence appear in exactly the fixed query order TotalBytesReceived,
TotalBytesSent, TotalPacketsReceived, TotalPacketsSent — the fan-out's
`map` preserves input order. -/
theorem C9_probe_order (u : String) (url : Option String) (v : String → Int) :
    probe (Except.ok (Device.mk (some u) url)) (fun m => Except.ok (v m)) =
      Except.ok
        [Sample.mk ("TotalBytesReceived") u (correct_value (v ("TotalBytesReceived"))),
         Sample.mk ("TotalBytesSent") u (correct_value (v ("TotalBytesSent"))),
         Sample.mk ("TotalPacketsReceived") u (correct_value (v ("TotalPacketsReceived"))),
         Sample.mk ("TotalPacketsSent") u (correct_value (v ("TotalPacketsSent")))] := rfl

/-- C10: a datagram whose status line does not consist of exactly three
whitespace-separated tokens fails in the framer even when the status code
token `200` is present; parsing succeeds only on exactly three tokens. -/
theorem C10_status_line (statusLine : List Char) (lines : List (List Char))
    (body : List Char)
    (hsl : hasCRLF statusLine = false)
    (hlen : (splitWS statusLine).length ≠ 3) :
    search_result (mkDatagram statusLine lines body) = Except.error ParseErr.malformed := by
  have hsp : search_parse (mkDatagram statusLine lines body)
      = Except.error ParseErr.valueError := by
    rw [search_parse, mkDatagram, partitionCRLF_append _ _ hsl]
    dsimp only
    cases h : splitWS statusLine with
    | nil => rfl
    | cons a t1 =>
      cases t1 with
      | nil => rfl
      | cons b t2 =>
        cases t2 with
        | nil => rfl
        | cons c t3 =>
          cases t3 with
          | nil => rw [h] at hlen; simp at hlen
          | cons d t4 => rfl
  simp only [search_result, hsp]

/-- Witness for C10: a four-token status line with status token `200`
still fails. -/
theorem C10_witness :
    search_result (mkDatagram ("HTTP/1.1 200 OK extra".data)
        [("Location: http://x/".data)] []) = Except.error ParseErr.malformed :=
  C10_status_line ("HTTP/1.1 200 OK extra".data) [("Location: http://x/".data)] []
    (by decide) (by decide)
